import Mathlib

/-!
Verification development for the strumboli MIDI strummer.

Shallow embedding of the core pipeline:
* note theory helpers (`note.ts`)
* raw-byte decode and curve/effect helpers (`data-helpers.ts`)
* the strum state machine (`strummer.ts`)
* the MIDI note lifecycle manager (`midi.ts`)

JavaScript numbers are modelled as `ℚ` (for sensor/effect arithmetic that the
claims exercise only at exactly-representable points) and as `ℝ` where the code
is genuinely transcendental (`Math.exp`, `Math.pow`).  JavaScript array access
that can yield `undefined` is modelled with `Option`.
-/

namespace Strumboli

/-- `NoteObject` from `note.ts`.  The source field `notation` is a Lean keyword,
so it is called `ntn` here. -/
structure NoteObject where
  ntn : String
  octave : Int
  secondary : Bool
deriving DecidableEq, Repr

/-- JavaScript array read `l[i]`: `undefined` (here `none`) when out of range. -/
def jsGet {α : Type} (l : List α) (i : Int) : Option α :=
  if h : 0 ≤ i ∧ i.toNat < l.length then some (l.get ⟨i.toNat, h.2⟩) else none

/-- JavaScript `l[i]` for a string table, with the out-of-range `undefined`
modelled as the sentinel string "undefined". -/
def jsStringAt (l : List String) (i : Int) : String :=
  match jsGet l i with
  | some s => s
  | none => "undefined"

namespace Note

/-- `Note.sharpNotations` from `note.ts` (written in two halves; the value is
the usual 12-entry chromatic table C, C#, ..., B). -/
def sharpNotations : List String :=
  ["C", "C#", "D", "D#", "E", "F"] ++ ["F#", "G", "G#", "A", "A#", "B"]

/-- `Note.flatNotations` from `note.ts`. -/
def flatNotations : List String :=
  ["C", "Db", "D", "Eb", "E", "F", "Gb", "G", "Ab", "A", "Bb", "B"]

/-- `Note.oddNotations` from `note.ts`. -/
def oddNotations : List String := ["B#", "Cb", "E#", "Fb"]

/-- `Note.correctedNotations` from `note.ts`. -/
def correctedNotations : List String := ["C", "C", "F", "F"]

/-- JavaScript `Array.prototype.indexOf`: index of first occurrence, `-1` if absent. -/
def jsIndexOf (l : List String) (s : String) : Int :=
  match l.findIdx? (fun y => y == s) with
  | some i => (i : Int)
  | none => -1

/-- `Note.indexOfNotation` from `note.ts`: sharp table first, then flat table. -/
def indexOfNtn (s : String) : Int :=
  let i := jsIndexOf sharpNotations s
  if i = -1 then jsIndexOf flatNotations s else i

/-- `Note.parseNotation` from `note.ts`: a trailing digit is the octave
(one digit only), otherwise the octave defaults to 4. -/
def parseNtn (s : String) : NoteObject :=
  if (String.back s).isDigit then
    { ntn := if s.length = 3 then String.take s 2 else String.take s 1,
      octave := ((String.back s).toNat - 48 : Nat),
      secondary := false }
  else
    { ntn := s, octave := 4, secondary := false }

/-- `Note.notationToMIDI` from `note.ts`. -/
def ntnToMIDI (s : String) : Int :=
  let ntObj := parseNtn s
  let i0 := jsIndexOf sharpNotations ntObj.ntn
  let i := if i0 = -1 then jsIndexOf flatNotations ntObj.ntn else i0
  ntObj.octave * 12 + i

/-- the computable core of `Note.getFrequencyForNotation` from `note.ts`:
the exponent numerator `indx` after octave stripping, odd-notation correction
and table lookup; `none` when the lookup fails (the source returns `undefined`). -/
def freqSemitoneIndex (nt : String) : Option Int :=
  let octave : Int := if (String.back nt).isDigit then ((String.back nt).toNat - 48 : Nat) else 4
  let nt1 := if (String.back nt).isDigit then String.dropRight nt 1 else nt
  let nt2 :=
    match oddNotations.findIdx? (fun y => y == nt1) with
    | some i => correctedNotations.getD i nt1
    | none => nt1
  let i0 := jsIndexOf sharpNotations nt2
  let indx := if i0 = -1 then jsIndexOf flatNotations nt2 else i0
  if indx = -1 then none else some (indx + (octave - 4) * 12)

/-- `Note.getFrequencyForNotation` from `note.ts`:
`440 * 2 ** (indx / 12)` over the reals. -/
noncomputable def getFrequencyForNtn (nt : String) : Option ℝ :=
  (freqSemitoneIndex nt).map (fun k => 440 * (2 : ℝ) ^ ((k : ℝ) / 12))

/-- the chord interval table inside `Note.parseChord` from `note.ts`. -/
def chordIntervals (t : String) : Option (List Nat) :=
  if t = "maj" then some [0, 4, 7]
  else if t = "min" then some [0, 3, 7]
  else if t = "m" then some [0, 3, 7]
  else if t = "dim" then some [0, 3, 6]
  else if t = "aug" then some [0, 4, 8]
  else if t = "sus2" then some [0, 2, 7]
  else if t = "sus4" then some [0, 5, 7]
  else if t = "5" then some [0, 7]
  else if t = "7" then some [0, 4, 7, 10]
  else if t = "maj7" then some [0, 4, 7, 11]
  else if t = "min7" then some [0, 3, 7, 10]
  else if t = "m7" then some [0, 3, 7, 10]
  else if t = "dim7" then some [0, 3, 6, 9]
  else if t = "aug7" then some [0, 4, 8, 10]
  else if t = "maj9" then some [0, 4, 7, 11, 14]
  else if t = "min9" then some [0, 3, 7, 10, 14]
  else if t = "m9" then some [0, 3, 7, 10, 14]
  else if t = "9" then some [0, 4, 7, 10, 14]
  else if t = "add9" then some [0, 4, 7, 14]
  else if t = "6" then some [0, 4, 7, 9]
  else if t = "min6" then some [0, 3, 7, 9]
  else if t = "m6" then some [0, 3, 7, 9]
  else none

/-- `Note.parseChord` from `note.ts`.  Root is 1 char, or 2 chars when the
second is `#`/`b`; empty suffix means `maj`; an unknown suffix falls back to
the major triad.  Per interval, the JS `%` is truncated remainder and
`Math.floor(q / 12)` is floor division. -/
def parseChord (chordNtn : String) (octave : Int) : List NoteObject :=
  let cs := chordNtn.toList
  let rootLen := if 2 ≤ cs.length ∧ (cs.getD 1 ' ' = '#' ∨ cs.getD 1 ' ' = 'b') then 2 else 1
  let root := (cs.take rootLen).asString
  let chordType0 := (cs.drop rootLen).asString
  let chordType := if chordType0 = "" then "maj" else chordType0
  let intervals :=
    match chordIntervals chordType with
    | some iv => iv
    | none => [0, 4, 7]
  let rootNote := parseNtn (root ++ toString octave)
  let rootIndex := indexOfNtn rootNote.ntn
  intervals.map (fun interval =>
    let noteIndex : Int := Int.tmod (rootIndex + (interval : Int)) 12
    let noteOctave : Int := octave + Int.fdiv (rootIndex + (interval : Int)) 12
    { ntn := jsStringAt sharpNotations noteIndex, octave := noteOctave, secondary := false })

end Note

namespace DataHelpers

/-- byte composition loop of `parseMultiByteRangeData` from `data-helpers.ts`:
`value += data[byteIdx] << (8 * i)`, skipping indices beyond the buffer. -/
def multiByteValue (data : List Nat) (byteIndices : List Nat) : Nat :=
  (List.range byteIndices.length).foldl
    (fun acc i =>
      let byteIdx := byteIndices.getD i 0
      if byteIdx < data.length then acc + (data.getD byteIdx 0) <<< (8 * i) else acc)
    0

/-- `parseMultiByteRangeData` from `data-helpers.ts`. -/
def parseMultiByteRangeData (data : List Nat) (byteIndices : List Nat)
    (minVal maxVal : ℚ) : ℚ :=
  if byteIndices.length = 0 then 0
  else if maxVal = minVal then 0
  else (((multiByteValue data byteIndices) : ℚ) - minVal) / (maxVal - minVal)

/-- spread discriminator of `calculateEffectValue` from `data-helpers.ts`. -/
inductive Spread where
  | direct
  | inverse
  | central
deriving DecidableEq, Repr

/-- `applyCurve` from `data-helpers.ts`: clamp to the input range, identity for
curve 1, otherwise the normalized exponential `(e^(k v) - 1) / (e^k - 1)`. -/
noncomputable def applyCurve (value curve minVal maxVal : ℝ) : ℝ :=
  if value ≤ minVal then minVal
  else if maxVal ≤ value then maxVal
  else if curve = 1 then value
  else
    let normalized := (value - minVal) / (maxVal - minVal)
    let curved := (Real.exp (curve * normalized) - 1) / (Real.exp curve - 1)
    minVal + curved * (maxVal - minVal)

/-- `calculateEffectValue` from `data-helpers.ts`. -/
noncomputable def calculateEffectValue (inputValue minVal maxVal multiplier curve : ℝ)
    (spread : Spread) : ℝ :=
  let scaledInput := max 0 (min 1 (inputValue * multiplier))
  match spread with
  | Spread.central =>
      let distanceFromCenter := |scaledInput - 1/2| * 2
      maxVal - applyCurve distanceFromCenter curve 0 1 * (maxVal - minVal)
  | Spread.inverse => maxVal - applyCurve scaledInput curve 0 1 * (maxVal - minVal)
  | Spread.direct => minVal + applyCurve scaledInput curve 0 1 * (maxVal - minVal)

end DataHelpers

namespace Strummer

/-- the string-index computation on line 69 of `strummer.ts`:
`Math.min(Math.floor(x / stringWidth), this._notes.length - 1)` where
`stringWidth = this._width / this._notes.length`.  Note: there is no lower
clamp at 0. -/
def stringIndexOf (x width : ℚ) (numNotes : Nat) : Int :=
  min ⌊x / (width / (numNotes : ℚ))⌋ ((numNotes : Int) - 1)

/-- the crossing-index loops on lines 167-180 of `strummer.ts`: every index
strictly after `lastIndex` up to `index` inclusive, ascending when moving
right, descending when moving left. -/
def crossedIndices (lastIndex index : Int) : List Int :=
  if lastIndex < index then
    (List.range (index - lastIndex).toNat).map (fun k => lastIndex + 1 + (k : Int))
  else
    (List.range (lastIndex - index).toNat).map (fun k => lastIndex - 1 - (k : Int))

/-- result object of `Strummer.strum` from `strummer.ts`. -/
inductive StrumResult where
  | strum (notes : List (Option NoteObject × Int))
  | release (velocity : Int)
deriving DecidableEq, Repr

/-- mutable fields of the `Strummer` class from `strummer.ts`. -/
structure StrumState where
  width : ℚ
  height : ℚ
  notes : List NoteObject
  lastStrummedIndex : Int
  lastPressure : ℚ
  lastTimestamp : ℚ
  pressureThreshold : ℚ
  lastStrumVelocity : Int
  pressureBuffer : List (ℚ × ℚ)
  bufferMaxSamples : Nat
  pendingTapIndex : Int
deriving DecidableEq, Repr

/-- field initializers of the `Strummer` class. -/
def initStrummer : StrumState :=
  { width := 1, height := 1, notes := [], lastStrummedIndex := -1, lastPressure := 0,
    lastTimestamp := 0, pressureThreshold := 1/10, lastStrumVelocity := 0,
    pressureBuffer := [], bufferMaxSamples := 3, pendingTapIndex := -1 }

/-- `Strummer.strum(x, pressure)` from `strummer.ts`, with `Date.now()/1000`
passed in explicitly as `currentTime`.  Branches in source order:
pressure-up release, new-tap buffering, already-high first sample,
buffer continuation/commit, cross-string strumming. -/
def strum (x pressure currentTime : ℚ) (s : StrumState) : Option StrumResult × StrumState :=
  if s.notes.length = 0 then (none, s) else
  let index := stringIndexOf x s.width s.notes.length
  if s.pressureThreshold ≤ s.lastPressure ∧ pressure < s.pressureThreshold then
    let releaseVelocity := s.lastStrumVelocity
    let s1 := { s with lastStrummedIndex := -1, lastPressure := pressure,
                       lastTimestamp := currentTime, pressureBuffer := [],
                       pendingTapIndex := -1, lastStrumVelocity := 0 }
    if 0 < releaseVelocity then (some (StrumResult.release releaseVelocity), s1) else (none, s1)
  else if (s.lastPressure < s.pressureThreshold ∧ s.pressureThreshold ≤ pressure) ∧
          (s.lastStrummedIndex = -1 ∨ s.lastStrummedIndex ≠ index) then
    (none, { s with pressureBuffer := [(s.lastPressure, s.lastTimestamp), (pressure, currentTime)],
                    pendingTapIndex := index, lastPressure := pressure,
                    lastTimestamp := currentTime })
  else if s.pressureThreshold ≤ pressure ∧ s.lastStrummedIndex = -1 ∧ s.pendingTapIndex = -1 then
    (none, { s with pressureBuffer := [(pressure, currentTime)], pendingTapIndex := index,
                    lastPressure := pressure, lastTimestamp := currentTime })
  else if s.pendingTapIndex ≠ -1 ∧ s.pressureBuffer.length < s.bufferMaxSamples then
    let buf := s.pressureBuffer ++ [(pressure, currentTime)]
    if s.bufferMaxSamples ≤ buf.length then
      let normalizedPressure := (pressure - s.pressureThreshold) / (1 - s.pressureThreshold)
      let clampedPressure := max 0 (min 1 normalizedPressure)
      let midiVelocity := max 20 (min 127 ⌊(20 : ℚ) + clampedPressure * 107⌋)
      (some (StrumResult.strum [(jsGet s.notes s.pendingTapIndex, midiVelocity)]),
       { s with pressureBuffer := [], lastPressure := pressure, lastTimestamp := currentTime,
                lastStrumVelocity := midiVelocity, lastStrummedIndex := s.pendingTapIndex,
                pendingTapIndex := -1 })
    else
      (none, { s with pressureBuffer := buf, lastPressure := pressure,
                      lastTimestamp := currentTime })
  else if s.pressureThreshold ≤ pressure ∧ s.lastStrummedIndex ≠ -1 ∧
          s.lastStrummedIndex ≠ index then
    let midiVelocity := max 20 ⌊pressure * 127⌋
    let indices := crossedIndices s.lastStrummedIndex index
    let notesToPlay := indices.map (fun i => (jsGet s.notes i, midiVelocity))
    let s2 := { s with lastPressure := pressure, lastTimestamp := currentTime,
                       lastStrumVelocity := midiVelocity, lastStrummedIndex := index }
    if notesToPlay.length ≠ 0 then (some (StrumResult.strum notesToPlay), s2) else (none, s2)
  else
    (none, { s with lastPressure := pressure, lastTimestamp := currentTime })

/-- `Strummer.configure` from `strummer.ts`: the first parameter
(`_pluckVelocityScale`) is ignored by the source; only the threshold is set. -/
def configure (_pluckVelocityScale pressureThreshold : ℚ) (s : StrumState) : StrumState :=
  { s with pressureThreshold := pressureThreshold }

/-- `Strummer.clearStrum` from `strummer.ts`. -/
def clearStrum (s : StrumState) : StrumState :=
  { s with lastStrummedIndex := -1, lastPressure := 0, lastTimestamp := 0,
           lastStrumVelocity := 0, pressureBuffer := [], pendingTapIndex := -1 }

/-- `Strummer.updateBounds` from `strummer.ts`. -/
def updateBounds (width height : ℚ) (s : StrumState) : StrumState :=
  { s with width := width, height := height }

/-- feed a list of `(x, pressure, time)` samples through `strum`,
collecting the per-sample results. -/
def strumRun : List (ℚ × ℚ × ℚ) → StrumState → List (Option StrumResult) × StrumState
  | [], s => ([], s)
  | i :: rest, s =>
    let step := strum i.1 i.2.1 i.2.2 s
    let next := strumRun rest step.2
    (step.1 :: next.1, next.2)

end Strummer

namespace Midi

/-- mutable fields of the `Midi` class from `midi.ts` that the note lifecycle
touches.  `activeNoteTimers` maps a note key to the absolute time at which its
scheduled auto-release callback will fire (`setTimeout(duration*1000)` issued
at `now` fires at `now + duration`); `midiOutConnected` models whether
`this.midiOut` is non-null. -/
structure MidiState where
  midiOutConnected : Bool
  midiStrumChannel : Option Int
  activeNoteTimers : List (String × ℚ)
  noteStartTimes : List (String × ℚ)
deriving DecidableEq, Repr

/-- `Map.set` on the timer map: replaces any entry with the same key. -/
def mapSet (m : List (String × ℚ)) (k : String) (v : ℚ) : List (String × ℚ) :=
  (k, v) :: m.filter (fun kv => decide (kv.1 ≠ k))

/-- `clearTimeout` + `Map.delete` on the timer map. -/
def mapDelete (m : List (String × ℚ)) (k : String) : List (String × ℚ) :=
  m.filter (fun kv => decide (kv.1 ≠ k))

/-- channel-set resolution shared by the send methods: explicit strum channel
(1-16, converted to 0-15), else broadcast to all 16 channels. -/
def channelsFor (s : MidiState) : List Int :=
  match s.midiStrumChannel with
  | some c => [c - 1]
  | none => (List.range 16).map (fun i => (i : Int))

/-- the string key `` `${midiNote}-${channels.join(',')}` `` from `midi.ts`. -/
def mkNoteKey (midiNote : Int) (channels : List Int) : String :=
  toString midiNote ++ "-" ++ String.intercalate "," (channels.map toString)

/-- `Midi.sendNote` from `midi.ts`: resolve pitch and channels, cancel any
existing timer for the key, send note-ons, record the start time and schedule
the auto-release at `now + duration`.  Returns the new state and the messages
transmitted synchronously. -/
def sendNote (note : NoteObject) (velocity : Int) (duration now : ℚ) (s : MidiState) :
    MidiState × List (List Int) :=
  if s.midiOutConnected = false then (s, []) else
  let midiNote := Note.ntnToMIDI (note.ntn ++ toString note.octave)
  let channels := channelsFor s
  let noteKey := mkNoteKey midiNote channels
  ({ s with activeNoteTimers := mapSet s.activeNoteTimers noteKey (now + duration),
            noteStartTimes := mapSet s.noteStartTimes noteKey now },
   channels.map (fun ch => [144 + ch, midiNote, velocity]))

/-- `Midi.sendRawNote` from `midi.ts`: explicit channel, else configured strum
channel, else broadcast. -/
def sendRawNote (midiNote velocity : Int) (channel : Option Int) (duration now : ℚ)
    (s : MidiState) : MidiState × List (List Int) :=
  if s.midiOutConnected = false then (s, []) else
  let channels :=
    match channel with
    | some c => [c - 1]
    | none => channelsFor s
  let noteKey := mkNoteKey midiNote channels
  ({ s with activeNoteTimers := mapSet s.activeNoteTimers noteKey (now + duration),
            noteStartTimes := mapSet s.noteStartTimes noteKey now },
   channels.map (fun ch => [144 + ch, midiNote, velocity]))

/-- `Midi.sendPitchBend` from `midi.ts`. -/
def sendPitchBend (bendValue : ℚ) (s : MidiState) : MidiState × List (List Int) :=
  if s.midiOutConnected = false then (s, []) else
  let b := max (-1) (min 1 bendValue)
  let midiBend : Nat := (max 0 (min 16383 ⌊(b + 1) * 8192⌋)).toNat
  let lsb : Nat := midiBend &&& 127
  let msb : Nat := (midiBend >>> 7) &&& 127
  (s, (channelsFor s).map (fun ch => [224 + ch, (lsb : Int), (msb : Int)]))

/-- per-note loop body of `Midi.releaseNotes`: cancel the key's timer, drop its
start time, send note-offs on every channel. -/
def releaseNotesGo (channels : List Int) :
    List NoteObject → MidiState × List (List Int) → MidiState × List (List Int)
  | [], acc => acc
  | note :: rest, acc =>
    let midiNote := Note.ntnToMIDI (note.ntn ++ toString note.octave)
    let noteKey := mkNoteKey midiNote channels
    let s1 := { acc.1 with activeNoteTimers := mapDelete acc.1.activeNoteTimers noteKey,
                           noteStartTimes := mapDelete acc.1.noteStartTimes noteKey }
    releaseNotesGo channels rest (s1, acc.2 ++ channels.map (fun ch => [128 + ch, midiNote, 64]))

/-- `Midi.releaseNotes` from `midi.ts`. -/
def releaseNotes (notes : List NoteObject) (s : MidiState) : MidiState × List (List Int) :=
  if s.midiOutConnected = false ∨ notes.length = 0 then (s, []) else
  releaseNotesGo (channelsFor s) notes (s, [])

/-- the auto-release callback scheduled by `sendNote`/`sendRawNote` firing for
`noteKey`: it deletes the key from both maps. -/
def fireTimer (noteKey : String) (s : MidiState) : MidiState :=
  { s with activeNoteTimers := mapDelete s.activeNoteTimers noteKey,
           noteStartTimes := mapDelete s.noteStartTimes noteKey }

/-- `Midi.close` from `midi.ts`: cancel every outstanding timer. -/
def closeAll (s : MidiState) : MidiState :=
  { s with activeNoteTimers := [], noteStartTimes := [] }

/-- a `Midi` instance constructed with a fixed strum channel 1 and a connected
output transport, with no note active. -/
def initMidi : MidiState :=
  { midiOutConnected := true, midiStrumChannel := some 1,
    activeNoteTimers := [], noteStartTimes := [] }

/-- the operations that touch the timer map. -/
inductive MidiOp where
  | note (n : NoteObject) (velocity : Int) (duration now : ℚ)
  | rawNote (pitch velocity : Int) (channel : Option Int) (duration now : ℚ)
  | pitchBend (bend : ℚ)
  | releaseOp (notes : List NoteObject)
  | fire (key : String)
  | closeOp
deriving Repr

/-- state transition of one operation. -/
def applyOp (s : MidiState) : MidiOp → MidiState
  | MidiOp.note n v d now => (sendNote n v d now s).1
  | MidiOp.rawNote p v c d now => (sendRawNote p v c d now s).1
  | MidiOp.pitchBend b => (sendPitchBend b s).1
  | MidiOp.releaseOp ns => (releaseNotes ns s).1
  | MidiOp.fire k => fireTimer k s
  | MidiOp.closeOp => closeAll s

/-- run a list of operations from a state. -/
def applyOps (ops : List MidiOp) (s : MidiState) : MidiState :=
  ops.foldl applyOp s

/-- the timer map holds at most one entry per key. -/
def keysNodup (m : List (String × ℚ)) : Prop :=
  (m.map Prod.fst).Nodup

end Midi

/-! ## Helper lemmas -/

/-- deleting a key preserves key uniqueness of the timer map. -/
theorem keysNodup_mapDelete (m : List (String × ℚ)) (k : String)
    (h : Midi.keysNodup m) : Midi.keysNodup (Midi.mapDelete m k) :=
  List.Nodup.sublist (List.Sublist.map Prod.fst (List.filter_sublist m)) h

/-- cancel-then-replace (`Map.set`) preserves key uniqueness of the timer map. -/
theorem keysNodup_mapSet (m : List (String × ℚ)) (k : String) (v : ℚ)
    (h : Midi.keysNodup m) : Midi.keysNodup (Midi.mapSet m k v) := by
  unfold Midi.keysNodup Midi.mapSet
  rw [List.map_cons, List.nodup_cons]
  refine ⟨?_, keysNodup_mapDelete m k h⟩
  intro hmem
  obtain ⟨kv, hkv, hfst⟩ := List.mem_map.mp hmem
  have := (List.mem_filter.mp hkv).2
  simp only [decide_eq_true_eq] at this
  exact this hfst

/-- the `releaseNotes` loop preserves key uniqueness of the timer map. -/
theorem keysNodup_releaseNotesGo (channels : List Int) (notes : List NoteObject) :
    ∀ acc : Midi.MidiState × List (List Int), Midi.keysNodup acc.1.activeNoteTimers →
      Midi.keysNodup ((Midi.releaseNotesGo channels notes acc).1.activeNoteTimers) := by
  induction notes with
  | nil => intro acc h; exact h
  | cons note rest ih =>
    intro acc h
    exact ih _ (keysNodup_mapDelete _ _ h)

/-- each `Midi` operation preserves key uniqueness of the timer map. -/
theorem keysNodup_applyOp (s : Midi.MidiState) (op : Midi.MidiOp)
    (h : Midi.keysNodup s.activeNoteTimers) :
    Midi.keysNodup ((Midi.applyOp s op).activeNoteTimers) := by
  cases op with
  | note n v d now =>
    simp only [Midi.applyOp, Midi.sendNote]
    split
    · exact h
    · exact keysNodup_mapSet _ _ _ h
  | rawNote p v c d now =>
    simp only [Midi.applyOp, Midi.sendRawNote]
    split
    · exact h
    · exact keysNodup_mapSet _ _ _ h
  | pitchBend b =>
    simp only [Midi.applyOp, Midi.sendPitchBend]
    split
    · exact h
    · exact h
  | releaseOp ns =>
    simp only [Midi.applyOp, Midi.releaseNotes]
    split
    · exact h
    · exact keysNodup_releaseNotesGo _ _ _ h
  | fire k => exact keysNodup_mapDelete _ _ h
  | closeOp => exact List.nodup_nil

/-- running any operation list preserves key uniqueness of the timer map. -/
theorem keysNodup_applyOps (ops : List Midi.MidiOp) :
    ∀ s : Midi.MidiState, Midi.keysNodup s.activeNoteTimers →
      Midi.keysNodup ((Midi.applyOps ops s).activeNoteTimers) := by
  induction ops with
  | nil => intro s h; exact h
  | cons op rest ih => intro s h; exact ih _ (keysNodup_applyOp s op h)

/-- on a width-1 surface with 3 strings, an x inside string 1 indexes string 1. -/
theorem stringIndexOf_middle_third (x : ℚ) (h1 : 1/3 ≤ x) (h2 : x < 2/3) :
    Strummer.stringIndexOf x 1 3 = 1 := by
  unfold Strummer.stringIndexOf
  have hq : x / ((1 : ℚ) / ((3 : Nat) : ℚ)) = 3 * x := by push_cast; ring
  rw [hq]
  have hfl : ⌊(3 : ℚ) * x⌋ = 1 := by
    rw [Int.floor_eq_iff]
    constructor
    · push_cast; linarith
    · push_cast; linarith
  rw [hfl]
  decide

/-- on a width-1 surface with 3 strings, an x at or beyond 2/3 indexes string 2. -/
theorem stringIndexOf_last_third (x : ℚ) (h1 : 2/3 ≤ x) :
    Strummer.stringIndexOf x 1 3 = 2 := by
  unfold Strummer.stringIndexOf
  have hq : x / ((1 : ℚ) / ((3 : Nat) : ℚ)) = 3 * x := by push_cast; ring
  rw [hq]
  have hfl : (2 : Int) ≤ ⌊(3 : ℚ) * x⌋ := by
    rw [Int.le_floor]
    push_cast
    linarith
  have h3 : ((3 : Nat) : Int) - 1 = 2 := by norm_num
  rw [h3]
  exact min_eq_right hfl

/-! ## Claim theorems -/

/-- C3: the active-note-timer map holds at most one live auto-release timer per
(pitch, channel-set) key — every `sendNote`/`sendRawNote` cancels any existing
timer for the key before scheduling the new one.  Concretely, `sendNote` of C4
(pitch 48, strum channel 1) with duration 0.2s at t=0 followed by the same
`sendNote` at t=0.05s leaves no auto-release scheduled at t=0.2s and exactly
one scheduled at t=0.25s. -/
theorem timer_cancel_then_replace :
    (∀ ops : List Midi.MidiOp,
        Midi.keysNodup ((Midi.applyOps ops Midi.initMidi).activeNoteTimers)) ∧
    (Midi.sendNote ⟨"C", 4, false⟩ 100 (1/5) (1/20)
        (Midi.sendNote ⟨"C", 4, false⟩ 100 (1/5) 0 Midi.initMidi).1).1.activeNoteTimers
      = [("48-0", 1/4)] ∧
    ((Midi.sendNote ⟨"C", 4, false⟩ 100 (1/5) (1/20)
        (Midi.sendNote ⟨"C", 4, false⟩ 100 (1/5) 0 Midi.initMidi).1).1.activeNoteTimers.filter
      (fun kv => decide (kv.2 = 1/5))) = [] ∧
    ((Midi.sendNote ⟨"C", 4, false⟩ 100 (1/5) (1/20)
        (Midi.sendNote ⟨"C", 4, false⟩ 100 (1/5) 0 Midi.initMidi).1).1.activeNoteTimers.filter
      (fun kv => decide (kv.2 = 1/4))).length = 1 := by
  have hm : Note.ntnToMIDI ("C" ++ toString (4 : Int)) = 48 := by decide
  have hkey : Midi.mkNoteKey 48 [0] = "48-0" := by decide
  have e1 : (Midi.sendNote ⟨"C", 4, false⟩ 100 (1/5) 0 Midi.initMidi).1 =
      ⟨true, some 1, [("48-0", 1/5)], [("48-0", 0)]⟩ := by
    simp only [Midi.sendNote, Midi.initMidi, Midi.channelsFor, hm]
    norm_num [hkey, Midi.mapSet]
  have e2 : (Midi.sendNote ⟨"C", 4, false⟩ 100 (1/5) (1/20)
      (Midi.sendNote ⟨"C", 4, false⟩ 100 (1/5) 0 Midi.initMidi).1).1.activeNoteTimers =
      [("48-0", 1/4)] := by
    rw [e1]
    simp only [Midi.sendNote, Midi.channelsFor, hm]
    norm_num [hkey, Midi.mapSet, List.filter_cons]
  refine ⟨fun ops => keysNodup_applyOps ops Midi.initMidi List.nodup_nil, e2, ?_, ?_⟩ <;>
    rw [e2] <;> norm_num [List.filter_cons]

/-- C5: the multi-byte-range decoder composes bytes little-endian
(`byte[i] << (8*i)`) and normalizes by `(value - min) / (max - min)`;
decoding bytes `[0x9b, 0x15]` at `byteIndices [0, 1]` with min 0, max 16383
yields `0x159b / 16383 = 5531 / 16383`. -/
theorem multiByteRange_littleEndian :
    DataHelpers.parseMultiByteRangeData [155, 21] [0, 1] 0 16383 = 5531 / 16383 ∧
    ∀ (b0 b1 : Nat) (mn mx : ℚ), mx ≠ mn →
      DataHelpers.parseMultiByteRangeData [b0, b1] [0, 1] mn mx =
        (((b0 + b1 * 2 ^ 8 : Nat) : ℚ) - mn) / (mx - mn) := by
  constructor
  · have hv : DataHelpers.multiByteValue [155, 21] [0, 1] = 5531 := by decide
    simp only [DataHelpers.parseMultiByteRangeData, hv]
    norm_num
  · intro b0 b1 mn mx hne
    have hv : DataHelpers.multiByteValue [b0, b1] [0, 1] = b0 + b1 * 2 ^ 8 := by
      simp [DataHelpers.multiByteValue, List.range_succ, Nat.shiftLeft_eq]
    simp only [DataHelpers.parseMultiByteRangeData, hv]
    rw [if_neg (by norm_num), if_neg hne]

/-- C5 witness: the little-endian conjunct instantiated at bytes 155, 21 with
range [0, 16383]. -/
theorem multiByteRange_littleEndian_witness :
    (16383 : ℚ) ≠ 0 ∧
    DataHelpers.parseMultiByteRangeData [155, 21] [0, 1] 0 16383 =
      (((155 + 21 * 2 ^ 8 : Nat) : ℚ) - 0) / (16383 - 0) :=
  ⟨by norm_num, multiByteRange_littleEndian.2 155 21 0 16383 (by norm_num)⟩

/-- C8: `parseChord "Am7" 4` yields chord tones with pitch classes A, C, E, G
rooted at octave 4, with per-interval octave rollover: the root A stays at
octave 4 and the C/E/G tones — whose chromatic offsets 12, 16, 19 from index 9
cross the 12-semitone boundary — roll over to octave 5
(`octave + Math.floor((rootIndex + interval) / 12)`). -/
theorem parseChord_Am7 :
    Note.parseChord "Am7" 4 =
      [{ ntn := "A", octave := 4, secondary := false },
       { ntn := "C", octave := 5, secondary := false },
       { ntn := "E", octave := 5, secondary := false },
       { ntn := "G", octave := 5, secondary := false }] ∧
    (Note.parseChord "Am7" 4).map NoteObject.ntn = ["A", "C", "E", "G"] ∧
    (Note.parseChord "Am7" 4).map NoteObject.octave =
      [4 + Int.fdiv (9 + 0) 12, 4 + Int.fdiv (9 + 3) 12,
       4 + Int.fdiv (9 + 7) 12, 4 + Int.fdiv (9 + 10) 12] := by
  refine ⟨by decide, by decide, by decide⟩

/-- C9: with no MIDI output transport (`midiOut` null), `sendNote`,
`sendRawNote`, `sendPitchBend` and `releaseNotes` are silent no-ops: no
message is transmitted and the timer/start-time bookkeeping is unchanged. -/
theorem no_transport_noop (s : Midi.MidiState) (hs : s.midiOutConnected = false)
    (note : NoteObject) (velocity pitch : Int) (channel : Option Int)
    (duration now bend : ℚ) (notes : List NoteObject) :
    Midi.sendNote note velocity duration now s = (s, []) ∧
    Midi.sendRawNote pitch velocity channel duration now s = (s, []) ∧
    Midi.sendPitchBend bend s = (s, []) ∧
    Midi.releaseNotes notes s = (s, []) := by
  refine ⟨?_, ?_, ?_, ?_⟩ <;>
    simp [Midi.sendNote, Midi.sendRawNote, Midi.sendPitchBend, Midi.releaseNotes, hs]

/-- C9 witness: a disconnected state with a live timer entry is left exactly
as it was by each send operation. -/
theorem no_transport_noop_witness :
    Midi.MidiState.midiOutConnected ⟨false, some 1, [("48-0", 1)], [("48-0", 0)]⟩ = false ∧
    (Midi.sendNote ⟨"C", 4, false⟩ 100 (3/2) 0 ⟨false, some 1, [("48-0", 1)], [("48-0", 0)]⟩ =
        (⟨false, some 1, [("48-0", 1)], [("48-0", 0)]⟩, []) ∧
     Midi.sendRawNote 60 100 (some 2) (3/2) 0 ⟨false, some 1, [("48-0", 1)], [("48-0", 0)]⟩ =
        (⟨false, some 1, [("48-0", 1)], [("48-0", 0)]⟩, []) ∧
     Midi.sendPitchBend (1/2) ⟨false, some 1, [("48-0", 1)], [("48-0", 0)]⟩ =
        (⟨false, some 1, [("48-0", 1)], [("48-0", 0)]⟩, []) ∧
     Midi.releaseNotes [⟨"C", 4, false⟩] ⟨false, some 1, [("48-0", 1)], [("48-0", 0)]⟩ =
        (⟨false, some 1, [("48-0", 1)], [("48-0", 0)]⟩, [])) :=
  ⟨rfl, no_transport_noop ⟨false, some 1, [("48-0", 1)], [("48-0", 0)]⟩ rfl
    ⟨"C", 4, false⟩ 100 60 (some 2) (3/2) 0 (1/2) [⟨"C", 4, false⟩]⟩

/-- C10: the first parameter of `Strummer.configure` (`_pluckVelocityScale`)
has no observable effect: for any two values, configuring with the same
threshold and then feeding the same `strum` sample sequence from the same
initial state produces identical events and identical final state. -/
theorem configure_first_param_unobservable (v1 v2 thr : ℚ) (s : Strummer.StrumState)
    (inputs : List (ℚ × ℚ × ℚ)) :
    Strummer.strumRun inputs (Strummer.configure v1 thr s) =
      Strummer.strumRun inputs (Strummer.configure v2 thr s) := rfl

/-- C4 counterexample: the string index has no lower clamp at 0.  At x = −1
with width 1 and 3 strings the code computes `min(⌊−1/(1/3)⌋, 2) = −3`, which
is outside [0, 2], and a pressure-down `strum` sample at that x stores −3 as
the pending tap index. -/
theorem stringIndex_no_lower_clamp_cex :
    Strummer.stringIndexOf (-1) 1 3 = -3 ∧
    ¬ (0 ≤ Strummer.stringIndexOf (-1) 1 3 ∧ Strummer.stringIndexOf (-1) 1 3 ≤ 2) ∧
    (Strummer.strum (-1) (1/2) 0
        { Strummer.initStrummer with
          notes := [⟨"C", 4, false⟩, ⟨"E", 4, false⟩, ⟨"G", 4, false⟩] }).2.pendingTapIndex
      = -3 := by
  have h1 : Strummer.stringIndexOf (-1) 1 3 = -3 := by
    unfold Strummer.stringIndexOf
    have hfl : ⌊(-1 : ℚ) / (1 / ((3 : Nat) : ℚ))⌋ = -3 := by norm_num
    rw [hfl]
    decide
  refine ⟨h1, by rw [h1]; decide, ?_⟩
  norm_num [Strummer.strum, Strummer.initStrummer, h1]

/-- C4 amended: the targeted string index equals `min(⌊x/(width/N)⌋, N−1)` —
there is no lower clamp — and it lies within [0, N−1] for every non-negative
x (clamping to N−1 for x beyond the surface width). -/
theorem stringIndex_min_only_in_range (x w : ℚ) (n : Nat)
    (hx : 0 ≤ x) (hw : 0 < w) (hn : 0 < n) :
    Strummer.stringIndexOf x w n = min ⌊x / (w / (n : ℚ))⌋ ((n : Int) - 1) ∧
    0 ≤ Strummer.stringIndexOf x w n ∧ Strummer.stringIndexOf x w n ≤ (n : Int) - 1 := by
  refine ⟨rfl, ?_, min_le_right _ _⟩
  unfold Strummer.stringIndexOf
  have hnq : (0 : ℚ) < (n : ℚ) := by exact_mod_cast hn
  have h1 : 0 ≤ ⌊x / (w / (n : ℚ))⌋ :=
    Int.floor_nonneg.mpr (div_nonneg hx (div_pos hw hnq).le)
  have h2 : (0 : Int) ≤ (n : Int) - 1 := by
    have : (1 : Int) ≤ (n : Int) := by exact_mod_cast hn
    omega
  exact le_min h1 h2

/-- C1: with 3 equally sized strings and pressure threshold 0.1, feeding
`strum` the pressure sequence [0, 0.5, 0.5, 0.5] at a fixed x inside string 1
emits nothing on the first two samples and exactly one `strum` event for
string 1 once the 3-sample tap buffer reaches capacity, with velocity
`⌊20 + clamp((pressure − threshold)/(1 − threshold), 0, 1) · 107⌋` clamped to
[20, 127] (here 67); the fourth sample emits nothing. -/
theorem tap_buffer_single_strum (n0 n1 n2 : NoteObject) (x t1 t2 t3 t4 : ℚ)
    (hx1 : 1/3 ≤ x) (hx2 : x < 2/3) :
    (Strummer.strumRun [(x, 0, t1), (x, 1/2, t2), (x, 1/2, t3), (x, 1/2, t4)]
        { Strummer.initStrummer with notes := [n0, n1, n2] }).1 =
      [none, none,
       some (Strummer.StrumResult.strum
         [(some n1,
           max 20 (min 127 ⌊(20 : ℚ) + max 0 (min 1 ((1/2 - 1/10) / (1 - 1/10))) * 107⌋))]),
       none] ∧
    max 20 (min 127 ⌊(20 : ℚ) + max 0 (min 1 ((1/2 - 1/10) / (1 - 1/10))) * 107⌋) = (67 : Int) := by
  have hidx : Strummer.stringIndexOf x 1 3 = 1 := stringIndexOf_middle_third x hx1 hx2
  have e1 : Strummer.strum x 0 t1 ⟨1, 1, [n0, n1, n2], -1, 0, 0, 1/10, 0, [], 3, -1⟩ =
      (none, ⟨1, 1, [n0, n1, n2], -1, 0, t1, 1/10, 0, [], 3, -1⟩) := by
    norm_num [Strummer.strum]
  have e2 : Strummer.strum x (1/2) t2 ⟨1, 1, [n0, n1, n2], -1, 0, t1, 1/10, 0, [], 3, -1⟩ =
      (none, ⟨1, 1, [n0, n1, n2], -1, 1/2, t2, 1/10, 0, [(0, t1), (1/2, t2)], 3, 1⟩) := by
    norm_num [Strummer.strum, hidx]
  have e3 : Strummer.strum x (1/2) t3
      ⟨1, 1, [n0, n1, n2], -1, 1/2, t2, 1/10, 0, [(0, t1), (1/2, t2)], 3, 1⟩ =
      (some (Strummer.StrumResult.strum [(some n1, 67)]),
       ⟨1, 1, [n0, n1, n2], 1, 1/2, t3, 1/10, 67, [], 3, -1⟩) := by
    norm_num [Strummer.strum, hidx, jsGet]
  have e4 : Strummer.strum x (1/2) t4 ⟨1, 1, [n0, n1, n2], 1, 1/2, t3, 1/10, 67, [], 3, -1⟩ =
      (none, ⟨1, 1, [n0, n1, n2], 1, 1/2, t4, 1/10, 67, [], 3, -1⟩) := by
    norm_num [Strummer.strum, hidx]
  have hs0 : ({ Strummer.initStrummer with notes := [n0, n1, n2] } : Strummer.StrumState) =
      ⟨1, 1, [n0, n1, n2], -1, 0, 0, 1/10, 0, [], 3, -1⟩ := rfl
  constructor
  · rw [hs0]
    simp only [Strummer.strumRun, e1, e2, e3, e4]
    norm_num
  · norm_num

/-- C1 witness: the scenario at x = 1/2 with concrete C4/E4/G4 strings. -/
theorem tap_buffer_single_strum_witness :
    (1/3 : ℚ) ≤ 1/2 ∧ (1/2 : ℚ) < 2/3 ∧
    ((Strummer.strumRun [((1/2 : ℚ), 0, 0), (1/2, 1/2, 1), (1/2, 1/2, 2), (1/2, 1/2, 3)]
        { Strummer.initStrummer with
          notes := [⟨"C", 4, false⟩, ⟨"E", 4, false⟩, ⟨"G", 4, false⟩] }).1 =
      [none, none,
       some (Strummer.StrumResult.strum
         [(some ⟨"E", 4, false⟩,
           max 20 (min 127 ⌊(20 : ℚ) + max 0 (min 1 ((1/2 - 1/10) / (1 - 1/10))) * 107⌋))]),
       none] ∧
     max 20 (min 127 ⌊(20 : ℚ) + max 0 (min 1 ((1/2 - 1/10) / (1 - 1/10))) * 107⌋) = (67 : Int)) :=
  ⟨by norm_num, by norm_num,
    tap_buffer_single_strum ⟨"C", 4, false⟩ ⟨"E", 4, false⟩ ⟨"G", 4, false⟩ (1/2) 0 1 2 3
      (by norm_num) (by norm_num)⟩

/-- C2: from a state where a strum has been committed on string 0 (threshold
0.1, pressure still held at or above it), a sample landing on string 2 emits a
single `strum` event for strings 1 and 2 in that ascending order — each
crossed string exactly once — each entry carrying velocity
`max(20, ⌊pressure · 127⌋)`. -/
theorem cross_strum_ascending (n0 n1 n2 : NoteObject) (x p q hgt lt t : ℚ) (lsv : Int)
    (buf : List (ℚ × ℚ)) (bm : Nat)
    (hx : 2/3 ≤ x) (hq : 1/10 ≤ q) (hp : 1/10 ≤ p) :
    Strummer.strum x p t ⟨1, hgt, [n0, n1, n2], 0, q, lt, 1/10, lsv, buf, bm, -1⟩ =
      (some (Strummer.StrumResult.strum
          [(some n1, max 20 ⌊p * 127⌋), (some n2, max 20 ⌊p * 127⌋)]),
       ⟨1, hgt, [n0, n1, n2], 2, p, t, 1/10, max 20 ⌊p * 127⌋, buf, bm, -1⟩) := by
  have hidx : Strummer.stringIndexOf x 1 3 = 2 := stringIndexOf_last_third x hx
  have hnp : ¬ (p < (1/10 : ℚ)) := not_lt.mpr hp
  have hnq : ¬ (q < (1/10 : ℚ)) := not_lt.mpr hq
  have hcross : Strummer.crossedIndices 0 2 = [1, 2] := by decide
  norm_num [Strummer.strum, hidx, hnp, hnq, hp, hcross, jsGet]
  rfl

/-- C2 witness: C4/E4/G4 strings, committed on string 0, sustained pressure
1/2 at x = 3/4 plucks E4 then G4 with velocity 63. -/
theorem cross_strum_ascending_witness :
    (2/3 : ℚ) ≤ 3/4 ∧ (1/10 : ℚ) ≤ 1/2 ∧
    Strummer.strum (3/4) (1/2) 5
        ⟨1, 1, [⟨"C", 4, false⟩, ⟨"E", 4, false⟩, ⟨"G", 4, false⟩], 0, 1/2, 4, 1/10, 67,
          [], 3, -1⟩ =
      (some (Strummer.StrumResult.strum
          [(some ⟨"E", 4, false⟩, max 20 ⌊(1/2 : ℚ) * 127⌋),
           (some ⟨"G", 4, false⟩, max 20 ⌊(1/2 : ℚ) * 127⌋)]),
       ⟨1, 1, [⟨"C", 4, false⟩, ⟨"E", 4, false⟩, ⟨"G", 4, false⟩], 2, 1/2, 5, 1/10,
         max 20 ⌊(1/2 : ℚ) * 127⌋, [], 3, -1⟩) :=
  ⟨by norm_num, by norm_num,
    cross_strum_ascending ⟨"C", 4, false⟩ ⟨"E", 4, false⟩ ⟨"G", 4, false⟩
      (3/4) (1/2) (1/2) 1 4 5 67 [] 3 (by norm_num) (by norm_num) (by norm_num)⟩

/-- C6: for the central spread with multiplier 1 and any curve exponent,
input 1/2 produces exactly the configured max, and inputs 0 and 1 each
produce exactly the configured min (exact over ℝ, for all min, max). -/
theorem central_spread_edges (mn mx k : ℝ) :
    DataHelpers.calculateEffectValue (1/2) mn mx 1 k DataHelpers.Spread.central = mx ∧
    DataHelpers.calculateEffectValue 0 mn mx 1 k DataHelpers.Spread.central = mn ∧
    DataHelpers.calculateEffectValue 1 mn mx 1 k DataHelpers.Spread.central = mn := by
  have hc0 : DataHelpers.applyCurve 0 k 0 1 = 0 := by
    unfold DataHelpers.applyCurve
    rw [if_pos le_rfl]
  have hc1 : DataHelpers.applyCurve 1 k 0 1 = 1 := by
    unfold DataHelpers.applyCurve
    rw [if_neg (by norm_num), if_pos le_rfl]
  refine ⟨?_, ?_, ?_⟩
  · simp only [DataHelpers.calculateEffectValue]
    rw [show max (0 : ℝ) (min 1 (1/2 * 1)) = 1/2 by norm_num]
    rw [show |(1/2 : ℝ) - 1/2| * 2 = 0 by norm_num]
    rw [hc0]
    ring
  · simp only [DataHelpers.calculateEffectValue]
    rw [show max (0 : ℝ) (min 1 (0 * 1)) = 0 by norm_num]
    rw [show |(0 : ℝ) - 1/2| * 2 = 1 by rw [abs_of_nonpos (by norm_num)]; norm_num]
    rw [hc1]
    ring
  · simp only [DataHelpers.calculateEffectValue]
    rw [show max (0 : ℝ) (min 1 (1 * 1)) = 1 by norm_num]
    rw [show |(1 : ℝ) - 1/2| * 2 = 1 by rw [abs_of_nonneg (by norm_num)]; norm_num]
    rw [hc1]
    ring

/-- C7: the code computes the semitone exponent of `getFrequencyForNotation`
from C within the octave (A ↦ index 9) while anchoring the magnitude at 440,
so "A4" (and plain "A", octave defaulting to 4) yields `440 · 2^(9/12)`
≈ 739.99 Hz — not the 440 Hz that equal temperament anchored at A4 = 440
prescribes.  The claim/spec is right and the code is off by the 9 semitones
from C to A. -/
theorem frequency_A4_divergence :
    Note.freqSemitoneIndex "A4" = some 9 ∧
    Note.freqSemitoneIndex "A" = some 9 ∧
    Note.getFrequencyForNtn "A4" = some (440 * (2 : ℝ) ^ ((9 : ℝ) / 12)) ∧
    (440 : ℝ) * (2 : ℝ) ^ ((9 : ℝ) / 12) ≠ 440 := by
  have h1 : Note.freqSemitoneIndex "A4" = some 9 := by decide
  have h2 : Note.freqSemitoneIndex "A" = some 9 := by decide
  have h3 : Note.getFrequencyForNtn "A4" = some (440 * (2 : ℝ) ^ ((9 : ℝ) / 12)) := by
    unfold Note.getFrequencyForNtn
    rw [h1]
    norm_num
  have hgt : (1 : ℝ) < (2 : ℝ) ^ ((9 : ℝ) / 12) := by
    have h0 : (2 : ℝ) ^ (0 : ℝ) < (2 : ℝ) ^ ((9 : ℝ) / 12) :=
      (Real.rpow_lt_rpow_left_iff (by norm_num)).mpr (by norm_num)
    simpa using h0
  refine ⟨h1, h2, h3, ?_⟩
  intro heq
  nlinarith [hgt]

/-- C4 amended witness: x = 1/2, width 1, 3 strings gives index 1 ∈ [0, 2]. -/
theorem stringIndex_min_only_in_range_witness :
    (0 : ℚ) ≤ 1/2 ∧ (0 : ℚ) < 1 ∧ (0 : Nat) < 3 ∧
    (Strummer.stringIndexOf (1/2) 1 3 = min ⌊(1/2 : ℚ) / (1 / (3 : ℚ))⌋ ((3 : Int) - 1) ∧
     0 ≤ Strummer.stringIndexOf (1/2) 1 3 ∧ Strummer.stringIndexOf (1/2) 1 3 ≤ (3 : Int) - 1) :=
  ⟨by norm_num, by norm_num, by norm_num,
    stringIndex_min_only_in_range (1/2) 1 3 (by norm_num) (by norm_num) (by norm_num)⟩

end Strumboli
